import Mathlib

/-
Verification of the CheckEngine graphics-context lifecycle core
(src/graphics/context/glfw_context.cpp and
src/util/intrinsics/bootable_game.cpp) against its specification.

The C++ code is shallowly embedded: the shared state of the process-wide
coordinator (`global_glfw_context`) is a Lean structure, and each member
function becomes a state transformer.  Calls into the external GLFW/GLEW
libraries are modelled by their observable effect on that state (windows
destroyed, events posted, the calling thread's current context) plus
oracles for their success or failure where the source branches on it.
-/

namespace CheckEngine

/-- A task sitting in `global_glfw_context::thread_queue`.  In the source
every enqueued task is the one-shot lambda built in
`destroy_glfw_window::operator()` (glfw_context.cpp:13-20): it captures the
saved `GLFWwindow*` (modelled as a `Nat` identifier), calls
`glfwDestroyWindow` on it, and returns `true` so the drain loop frees it. -/
structure Task where
  ptr : Nat
  oneShot : Bool
deriving DecidableEq, Repr

/-- The shared state owned by the `global_glfw_context` singleton: the
live-context counter `active_contexts`, the deferred task queue
`thread_queue` (front of the list = earliest enqueued), plus traces of the
external calls made so far: the pointers passed to `glfwDestroyWindow`, in
order, and the number of `glfwPostEmptyEvent` calls. -/
structure CoordState where
  activeContexts : Int
  threadQueue : List Task
  destroyedWindows : List Nat
  postedEvents : Nat
deriving DecidableEq, Repr

/-- Running one dequeued task (glfw_context.cpp:48): the destroy lambda
calls `glfwDestroyWindow` on its saved pointer and reports (by returning
`true`) that it should be freed after this one execution. -/
def runTask (s : CoordState) (t : Task) : CoordState × Bool :=
  ({ s with destroyedWindows := s.destroyedWindows ++ [t.ptr] }, t.oneShot)

/-- The loop of `global_glfw_context::execute_queue`
(glfw_context.cpp:41-51): while `get_size() > 0`, `remove()` pops the
front task, the task is run, and freed if it returned `true`.  The list
argument mirrors the pending queue `s.threadQueue` of the state threaded
through the loop. -/
def execLoop : CoordState → List Task → CoordState
  | s, [] => s
  | s, t :: rest => execLoop (runTask { s with threadQueue := rest } t).1 rest

/-- `global_glfw_context::execute_queue` (glfw_context.cpp:41-51). -/
def execute_queue (s : CoordState) : CoordState :=
  execLoop s s.threadQueue

/-- The GLFW window-creation hints relevant to the constructor
(glfw_context.cpp:71-76). -/
structure Hints where
  versionMajor : Int
  versionMinor : Int
  visible : Bool
deriving DecidableEq, Repr

/-- The world a single calling thread sees: the shared coordinator state,
the window hints, the thread's current GLFW context (`none` after
`glfwMakeContextCurrent(NULL)`), and whether GLEW has been successfully
initialized for the context under construction. -/
structure World where
  coord : CoordState
  hints : Hints
  current : Option Nat
  glewReady : Bool
deriving DecidableEq, Repr

/-- Oracle for the external calls the constructor branches on:
`createdWindow` is the result of `glfwCreateWindow` (`none` models a NULL
return, e.g. for an invalid or unsupported context-version configuration),
and `glewOk` is whether `glewInit` itself succeeds when a context is
current. -/
structure CtorEnv where
  createdWindow : Option Nat
  glewOk : Bool
deriving DecidableEq, Repr

/-- `glfw_context::glfw_context(int context_version)`
(glfw_context.cpp:69-92).  Returns the resulting world together with
`some msg` when the constructor throws.  Steps, in source order: set the
version-major hint to `context_version / 10`, version-minor to
`context_version % 10` (C++ truncated division, `Int.tdiv`/`Int.tmod`),
visibility off; create the window and make it current (a NULL window
leaves no context current); run `glewInit`, which cannot succeed without a
current context; on failure throw, leaving `active_contexts` untouched; on
success relinquish the context (`glfwMakeContextCurrent(NULL)`) and only
then increment `active_contexts`. -/
def glfw_context_ctor (contextVersion : Int) (env : CtorEnv) (w : World) :
    World × Option String :=
  let w1 := { w with hints :=
    { versionMajor := contextVersion.tdiv 10
      versionMinor := contextVersion.tmod 10
      visible := false } }
  let w2 := { w1 with current := env.createdWindow }
  match env.createdWindow, env.glewOk with
  | some _, true =>
      ({ w2 with
          glewReady := true
          current := none
          coord := { w2.coord with activeContexts := w2.coord.activeContexts + 1 } },
        none)
  | _, _ =>
      (w2, some "GLEW failed; check system requirements and libraries")

/-- `destroy_glfw_window::operator()(GLFWwindow* ptr)`
(glfw_context.cpp:7-23), the custom deleter of the owning smart pointer:
relinquish the current context on the calling thread, enqueue the one-shot
destroy task for the saved pointer, and post an empty event to wake the
affinity thread's timed wait.  `glfwDestroyWindow` is NOT called here. -/
def destroy_glfw_window_run (ptr : Nat) (w : World) : World :=
  { w with
      current := none
      coord := { w.coord with
        threadQueue := w.coord.threadQueue ++ [{ ptr := ptr, oneShot := true }]
        postedEvents := w.coord.postedEvents + 1 } }

/-- `glfw_context::~glfw_context` (glfw_context.cpp:94-97) followed by the
implicit destruction of the `pointer` member: the destructor body runs
`active_contexts--` first; then the smart pointer's destructor invokes the
deleter on the held window (skipped when the pointer is null). -/
def glfw_context_dtor (ptr : Option Nat) (w : World) : World :=
  let w1 := { w with coord :=
    { w.coord with activeContexts := w.coord.activeContexts - 1 } }
  match ptr with
  | some p => destroy_glfw_window_run p w1
  | none => w1

/-- An observable lifecycle event on the coordinator state: a
`glfw_context` construction attempt (with its oracle) or a destruction of
a context holding the given window pointer. -/
inductive CtxEvent where
  | construct (version : Int) (env : CtorEnv)
  | destroy (ptr : Option Nat)
deriving DecidableEq, Repr

/-- Effect of a single lifecycle event on the world. -/
def ctxStep (w : World) : CtxEvent → World
  | .construct v env => (glfw_context_ctor v env w).1
  | .destroy ptr => glfw_context_dtor ptr w

/-- Run a sequence of lifecycle events. -/
def ctxRun (w : World) (tr : List CtxEvent) : World :=
  tr.foldl ctxStep w

/-- Whether a constructor attempt with this oracle succeeds (does not
throw): the window must be created and `glewInit` must succeed. -/
def ctorOk (env : CtorEnv) : Bool :=
  env.createdWindow.isSome && env.glewOk

/-- Spec-side view: the event is a successful construction. -/
def isConstructOk : CtxEvent → Bool
  | .construct _ env => ctorOk env
  | _ => false

/-- Spec-side view: the event is a destruction. -/
def isDestroyEvent : CtxEvent → Bool
  | .destroy _ => true
  | _ => false

/-- `global_glfw_context::park_thread` (glfw_context.cpp:53-63), the
affinity thread's parking loop: while `active_contexts > 0`, block in
`glfwWaitEventsTimeout(0.1)` then drain with `execute_queue()`; when the
guard fails, drain once more and return.  Other threads act exactly while
this thread is blocked in the timed wait: `sched` lists, per wait, the
lifecycle events they perform (an exhausted schedule means no further
activity).  `fuel` bounds the number of loop tests; `none` means the loop
was still running when fuel ran out.  On return the result carries the
final world and the number of executed loop iterations. -/
def parkThread (fuel : Nat) (sched : List (List CtxEvent)) (w : World) :
    Option (World × Nat) :=
  match fuel with
  | 0 => none
  | fuel + 1 =>
    if 0 < w.coord.activeContexts then
      let step := match sched with
        | [] => (([] : List CtxEvent), ([] : List (List CtxEvent)))
        | evs :: rest => (evs, rest)
      let w1 := ctxRun w step.1
      let w2 := { w1 with coord := execute_queue w1.coord }
      Option.map (fun r => (r.1, r.2 + 1)) (parkThread fuel step.2 w2)
    else
      some ({ w with coord := execute_queue w.coord }, 0)

/-- A convenient concrete starting world: fresh coordinator, default
hints, no current context. -/
def initialWorld : World :=
  { coord :=
      { activeContexts := 0
        threadQueue := []
        destroyedWindows := []
        postedEvents := 0 }
    hints := { versionMajor := 0, versionMinor := 0, visible := true }
    current := none
    glewReady := false }

/-- One operation on a Per-Thread Registry entry.  Only the two operations
`bootable_game::park_thread` applies to `per_thread<glfw_window>` are
needed. -/
inductive RegOp where
  | getOrCreate
  | removeReference
deriving DecidableEq, Repr

/-- A Per-Thread Registry entry for one (resource type, thread) key:
whether the instance currently exists, its reference count, and how many
times it has been constructed and destroyed. -/
structure RegEntry where
  present : Bool
  refCount : Nat
  constructions : Nat
  destructions : Nat
deriving DecidableEq, Repr

/-- Modelled from the spec: the Per-Thread Registry `per_thread<T>` lives
in util/intrinsics/singleton.h, which is not among the sources.  Per spec
sections 4.1 and 8: `get_or_create` constructs the thread-local instance on
first call and increments the reference count on every call (so n calls
leave the count at n); `remove_reference` decrements the count and, when it
hits zero, destroys the instance and removes the entry. -/
def regStep (e : RegEntry) : RegOp → RegEntry
  | .getOrCreate =>
      if e.present then { e with refCount := e.refCount + 1 }
      else { e with
        present := true
        refCount := 1
        constructions := e.constructions + 1 }
  | .removeReference =>
      if e.present then
        if e.refCount ≤ 1 then
          { e with
            present := false
            refCount := 0
            destructions := e.destructions + 1 }
        else { e with refCount := e.refCount - 1 }
      else e

/-- A registry entry before any operation. -/
def emptyEntry : RegEntry :=
  { present := false, refCount := 0, constructions := 0, destructions := 0 }

/-- The sequence of `per_thread<glfw_window>` registry operations performed
by `bootable_game::park_thread`, read off the source in order:
`get_or_create` at bootable_game.cpp:20 and :30, `remove_reference` at
bootable_game.cpp:46 and :50.  (The second copy of the routine, at
glfw_context.cpp:112-137, performs the same four operations.) -/
def windowRegistryOps : List RegOp :=
  [.getOrCreate, .getOrCreate, .removeReference, .removeReference]

/-- An observable event of the worker frame loop. -/
inductive FrameEv where
  | update
  | logError (code : Nat)
  | swap
deriving DecidableEq, Repr

/-- The event is a buffer swap. -/
def isSwapEv : FrameEv → Bool
  | .swap => true
  | _ => false

/-- The event is an update-callback invocation. -/
def isUpdateEv : FrameEv → Bool
  | .update => true
  | _ => false

/-- The error code an event logged, if it is a log event. -/
def loggedCode : FrameEv → Option Nat
  | .logError c => some c
  | _ => none

/-- The frame loop of `bootable_game::park_thread`
(bootable_game.cpp:35-44): each iteration runs `temp_update()`, reads
`glGetError()`, logs the code if it is non-zero (`GL_NO_ERROR` is 0), and
swaps buffers; the loop repeats until `glfwWindowShouldClose` observes
true.  `errs` lists, for each frame the window stays open, the error code
`glGetError` reports in that frame; the result is the trace of observable
events of the whole run. -/
def frameLoop : List Nat → List FrameEv
  | [] => []
  | err :: rest =>
      FrameEv.update ::
        ((if err != 0 then [FrameEv.logError err] else []) ++
          (FrameEv.swap :: frameLoop rest))

/-- Concrete lifecycle trace: a successful construction, a failed one
(window creation returns NULL), and one destruction. -/
def c1Trace : List CtxEvent :=
  [.construct 33 { createdWindow := some 1, glewOk := true },
   .construct 20 { createdWindow := none, glewOk := true },
   .destroy (some 1)]

/-- Concrete world with no live context and one pending destroy task. -/
def c2World : World :=
  { initialWorld with coord :=
    { initialWorld.coord with threadQueue := [{ ptr := 5, oneShot := true }] } }

/-- The world `parkThread` produces from `c2World`: the pending task has
run (window 5 destroyed) and the queue is empty. -/
def c2Final : World :=
  { c2World with coord :=
    { c2World.coord with threadQueue := [], destroyedWindows := [5] } }

/-- Constructor oracle for a failed window creation. -/
def c5Env : CtorEnv := { createdWindow := none, glewOk := true }

/-- Constructor oracle for a fully successful construction. -/
def c7Env : CtorEnv := { createdWindow := some 1, glewOk := true }

/-- Concrete world with no live context and one pending destroy task, for
the immediate-drain scenario. -/
def c9World : World :=
  { initialWorld with coord :=
    { initialWorld.coord with threadQueue := [{ ptr := 7, oneShot := true }] } }

/-- Concrete world whose current context is window 7. -/
def c10World : World := { initialWorld with current := some 7 }

/-! ### Helper lemmas -/

/-- Loop invariant of `execute_queue`: when the list argument mirrors the
pending queue, the loop empties the queue and destroys exactly the queued
pointers, in order, leaving every other field unchanged. -/
theorem execLoop_spec (l : List Task) : ∀ s : CoordState, s.threadQueue = l →
    execLoop s l = { s with
      threadQueue := []
      destroyedWindows := s.destroyedWindows ++ l.map Task.ptr } := by
  induction l with
  | nil =>
    intro s h
    cases s
    simp only [execLoop, List.map_nil, List.append_nil]
    simp_all
  | cons t rest ih =>
    intro s h
    simp only [execLoop, runTask]
    rw [ih _ rfl]
    cases s
    simp [List.append_assoc]

/-- `execute_queue` empties the queue and destroys exactly the pending
pointers in FIFO order; the counter and event count are untouched. -/
theorem execute_queue_spec (s : CoordState) :
    execute_queue s = { s with
      threadQueue := []
      destroyedWindows := s.destroyedWindows ++ s.threadQueue.map Task.ptr } :=
  execLoop_spec s.threadQueue s rfl

/-- Counter effect of a single lifecycle event: a successful construction
adds one, a destruction subtracts one, a failed construction changes
nothing. -/
theorem ctxStep_activeContexts (w : World) (e : CtxEvent) :
    (ctxStep w e).coord.activeContexts =
      w.coord.activeContexts
        + (if isConstructOk e then 1 else 0)
        - (if isDestroyEvent e then 1 else 0) := by
  cases e with
  | construct v env =>
    obtain ⟨cw, gok⟩ := env
    cases cw <;> cases gok <;>
      simp [ctxStep, glfw_context_ctor, isConstructOk, isDestroyEvent, ctorOk]
  | destroy ptr =>
    cases ptr <;>
      simp [ctxStep, glfw_context_dtor, destroy_glfw_window_run,
        isConstructOk, isDestroyEvent]

/-- Counter effect of a whole event sequence, from an arbitrary start. -/
theorem ctxRun_activeContexts (tr : List CtxEvent) : ∀ w : World,
    (ctxRun w tr).coord.activeContexts =
      w.coord.activeContexts
        + (tr.countP isConstructOk : Int) - (tr.countP isDestroyEvent : Int) := by
  induction tr with
  | nil => intro w; simp [ctxRun]
  | cons e tr ih =>
    intro w
    have hstep := ctxStep_activeContexts w e
    have htail := ih (ctxStep w e)
    simp only [ctxRun, List.foldl_cons] at htail ⊢
    rw [htail, hstep]
    by_cases hc : isConstructOk e <;> by_cases hd : isDestroyEvent e <;>
      simp [List.countP_cons, hc, hd] <;> omega

/-! ### Claims -/

/-- C1: starting from a fresh coordinator, after any sequence of
`glfw_context` constructions and destructions the live-context counter
`active_contexts` equals the number of successful constructions minus the
number of destructions, i.e. the number of successfully constructed and
not yet destroyed Context Handles; every prefix of a longer run is itself
such a sequence, so this holds at every observation point. -/
theorem active_contexts_counts_live_handles (w0 : World) (tr : List CtxEvent)
    (h : w0.coord.activeContexts = 0) :
    (ctxRun w0 tr).coord.activeContexts =
      (tr.countP isConstructOk : Int) - (tr.countP isDestroyEvent : Int) := by
  rw [ctxRun_activeContexts, h]
  omega

/-- Witness for C1 on a concrete three-event trace. -/
theorem active_contexts_counts_live_handles_check :
    initialWorld.coord.activeContexts = 0 ∧
    (ctxRun initialWorld c1Trace).coord.activeContexts =
      (c1Trace.countP isConstructOk : Int) - (c1Trace.countP isDestroyEvent : Int) :=
  ⟨by decide, active_contexts_counts_live_handles initialWorld c1Trace (by decide)⟩

/-- C3: a single `execute_queue` call runs each task pending at call time
exactly once and in FIFO enqueue order (the `glfwDestroyWindow` trace is
extended by exactly the queued pointers, in queue order, each occurrence
once), returns with the queue empty, and leaves the live-context counter
untouched. -/
theorem execute_queue_runs_pending_fifo (s : CoordState) :
    (execute_queue s).threadQueue = [] ∧
    (execute_queue s).destroyedWindows
      = s.destroyedWindows ++ s.threadQueue.map Task.ptr ∧
    (execute_queue s).activeContexts = s.activeContexts := by
  rw [execute_queue_spec]
  exact ⟨rfl, rfl, rfl⟩

/-- C4: destroying a Context Handle does not call `glfwDestroyWindow`
inline (the destroyed-window trace is unchanged); it clears the calling
thread's current context, appends exactly one one-shot task for the saved
pointer to the deferred queue — a task whose execution destroys exactly
that pointer and asks to be freed — posts exactly one empty event, and
decrements the live-context counter by exactly one. -/
theorem dtor_defers_native_destroy (ptr : Nat) (w : World) :
    (glfw_context_dtor (some ptr) w).coord.destroyedWindows
      = w.coord.destroyedWindows ∧
    (glfw_context_dtor (some ptr) w).current = none ∧
    (glfw_context_dtor (some ptr) w).coord.threadQueue
      = w.coord.threadQueue ++ [{ ptr := ptr, oneShot := true }] ∧
    (glfw_context_dtor (some ptr) w).coord.postedEvents
      = w.coord.postedEvents + 1 ∧
    (glfw_context_dtor (some ptr) w).coord.activeContexts
      = w.coord.activeContexts - 1 ∧
    (∀ s : CoordState,
      (runTask s { ptr := ptr, oneShot := true }).1.destroyedWindows
        = s.destroyedWindows ++ [ptr] ∧
      (runTask s { ptr := ptr, oneShot := true }).2 = true) := by
  refine ⟨rfl, rfl, rfl, rfl, rfl, fun s => ⟨rfl, rfl⟩⟩

/-- C5: when window creation fails (e.g. an invalid or unsupported context
version makes `glfwCreateWindow` return NULL) or the GLEW function-loading
layer fails, the constructor throws, and `active_contexts` is exactly what
it was before the call — the increment happens only after every failure
point. -/
theorem ctor_failure_throws_and_leaves_counter (v : Int) (env : CtorEnv)
    (w : World) (h : env.createdWindow = none ∨ env.glewOk = false) :
    (glfw_context_ctor v env w).2.isSome = true ∧
    (glfw_context_ctor v env w).1.coord.activeContexts
      = w.coord.activeContexts := by
  obtain ⟨cw, gok⟩ := env
  cases cw <;> cases gok <;> simp_all [glfw_context_ctor]

/-- Witness for C5: failed window creation at version 99. -/
theorem ctor_failure_throws_and_leaves_counter_check :
    (c5Env.createdWindow = none ∨ c5Env.glewOk = false) ∧
    ((glfw_context_ctor 99 c5Env initialWorld).2.isSome = true ∧
     (glfw_context_ctor 99 c5Env initialWorld).1.coord.activeContexts
       = initialWorld.coord.activeContexts) :=
  ⟨by decide,
    ctor_failure_throws_and_leaves_counter 99 c5Env initialWorld (by decide)⟩

/-- C7: a successful construction with requested version `v` leaves the
version-major hint at `v / 10` and the minor hint at `v % 10` (C++
truncated integer division), the visibility hint off, GLEW initialized
(which in this model requires the new context to have been current on the
constructing thread), and no context current on that thread at return. -/
theorem ctor_hints_and_relinquish (v : Int) (env : CtorEnv) (w : World)
    (h : (glfw_context_ctor v env w).2 = none) :
    (glfw_context_ctor v env w).1.hints.versionMajor = v.tdiv 10 ∧
    (glfw_context_ctor v env w).1.hints.versionMinor = v.tmod 10 ∧
    (glfw_context_ctor v env w).1.hints.visible = false ∧
    (glfw_context_ctor v env w).1.glewReady = true ∧
    (glfw_context_ctor v env w).1.current = none := by
  obtain ⟨cw, gok⟩ := env
  cases cw <;> cases gok <;> simp_all [glfw_context_ctor]

/-- Witness for C7: successful construction at version 33. -/
theorem ctor_hints_and_relinquish_check :
    (glfw_context_ctor 33 c7Env initialWorld).2 = none ∧
    ((glfw_context_ctor 33 c7Env initialWorld).1.hints.versionMajor
        = Int.tdiv 33 10 ∧
     (glfw_context_ctor 33 c7Env initialWorld).1.hints.versionMinor
        = Int.tmod 33 10 ∧
     (glfw_context_ctor 33 c7Env initialWorld).1.hints.visible = false ∧
     (glfw_context_ctor 33 c7Env initialWorld).1.glewReady = true ∧
     (glfw_context_ctor 33 c7Env initialWorld).1.current = none) :=
  ⟨by decide, ctor_hints_and_relinquish 33 c7Env initialWorld (by decide)⟩

/-- C10: the deleter clears the calling thread's current context
unconditionally — here even when the window being destroyed is not the
one current on that thread. -/
theorem deleter_clears_current_unconditionally (ptr : Nat) (w : World)
    (_h : w.current ≠ some ptr) :
    (destroy_glfw_window_run ptr w).current = none := rfl

/-- Witness for C10: destroying window 3 while window 7 is current. -/
theorem deleter_clears_current_unconditionally_check :
    c10World.current ≠ some 3 ∧
    (destroy_glfw_window_run 3 c10World).current = none :=
  ⟨by decide, deleter_clears_current_unconditionally 3 c10World (by decide)⟩

/-- C2: whenever the affinity `park_thread` returns, the live-context
counter it observed at the failing loop test was not positive — it never
returns while the counter is above zero — and the returned world is
exactly one final `execute_queue` drain applied to that loop-exit world,
leaving the deferred queue empty. -/
theorem park_thread_returns_only_after_final_drain (fuel : Nat)
    (sched : List (List CtxEvent)) (w wf : World) (iters : Nat)
    (h : parkThread fuel sched w = some (wf, iters)) :
    wf.coord.activeContexts ≤ 0 ∧ wf.coord.threadQueue = [] ∧
    ∃ wExit : World, ¬ 0 < wExit.coord.activeContexts ∧
      wf = { wExit with coord := execute_queue wExit.coord } := by
  induction fuel generalizing sched w wf iters with
  | zero => simp [parkThread] at h
  | succ n ih =>
    by_cases hg : 0 < w.coord.activeContexts
    · simp only [parkThread, hg, if_true] at h
      rcases Option.map_eq_some'.mp h with ⟨⟨wf', it'⟩, hrec, heq⟩
      obtain ⟨rfl, rfl⟩ := Prod.mk.injEq .. |>.mp heq
      exact ih _ _ _ _ hrec
    · simp only [parkThread, hg, if_false] at h
      obtain ⟨rfl, rfl⟩ := Prod.mk.injEq .. |>.mp (Option.some.injEq .. |>.mp h)
      refine ⟨?_, ?_, w, hg, rfl⟩
      · simp only [execute_queue_spec]
        omega
      · simp only [execute_queue_spec]

/-- Witness for C2: one pending destroy task, counter already zero. -/
theorem park_thread_returns_only_after_final_drain_check :
    parkThread 1 [] c2World = some (c2Final, 0) ∧
    (c2Final.coord.activeContexts ≤ 0 ∧ c2Final.coord.threadQueue = [] ∧
      ∃ wExit : World, ¬ 0 < wExit.coord.activeContexts ∧
        c2Final = { wExit with coord := execute_queue wExit.coord }) :=
  ⟨by decide,
    park_thread_returns_only_after_final_drain 1 [] c2World c2Final 0 (by decide)⟩

/-- C9: when the live-context counter is already zero at the call, the
wait-loop body never executes (zero iterations are reported), yet
`park_thread` still performs one full `execute_queue` drain — every task
already pending is executed — before returning. -/
theorem park_thread_zero_contexts_immediate_drain (fuel : Nat)
    (sched : List (List CtxEvent)) (w : World)
    (h : w.coord.activeContexts = 0) :
    parkThread (fuel + 1) sched w =
      some ({ w with coord := { w.coord with
        threadQueue := []
        destroyedWindows :=
          w.coord.destroyedWindows ++ w.coord.threadQueue.map Task.ptr } }, 0) := by
  have hg : ¬ 0 < w.coord.activeContexts := by omega
  simp only [parkThread, hg, if_false, execute_queue_spec]

/-- Witness for C9: counter zero, one pending destroy task for window 7. -/
theorem park_thread_zero_contexts_immediate_drain_check :
    c9World.coord.activeContexts = 0 ∧
    parkThread 1 [] c9World =
      some ({ c9World with coord := { c9World.coord with
        threadQueue := []
        destroyedWindows :=
          c9World.coord.destroyedWindows ++ c9World.coord.threadQueue.map Task.ptr } }, 0) :=
  ⟨by decide, park_thread_zero_contexts_immediate_drain 0 [] c9World (by decide)⟩

/-- C6 counterexample: the worker `park_thread` does not release the
window-utility registry reference exactly once at loop exit — its
operation trace contains two `remove_reference` calls. -/
theorem window_remove_reference_twice :
    windowRegistryOps.count RegOp.removeReference = 2 ∧
    ¬ windowRegistryOps.count RegOp.removeReference = 1 := by
  decide

/-- C6 (amended): the worker `park_thread` releases the window-utility
reference exactly twice — one `remove_reference` per `get_or_create`
acquisition, of which there are also two — so under the spec's registry
semantics the reference count ends balanced at zero and the thread-local
window instance (constructed once) is destroyed exactly once at loop
exit. -/
theorem window_reference_count_balanced :
    windowRegistryOps.count RegOp.removeReference
      = windowRegistryOps.count RegOp.getOrCreate ∧
    (windowRegistryOps.foldl regStep emptyEntry).refCount = 0 ∧
    (windowRegistryOps.foldl regStep emptyEntry).present = false ∧
    (windowRegistryOps.foldl regStep emptyEntry).constructions = 1 ∧
    (windowRegistryOps.foldl regStep emptyEntry).destructions = 1 := by
  decide

/-- C8: over any run of the worker frame loop, every frame performs its
buffer swap and the loop reaches the next frame no matter which error
codes `glGetError` reports — the swap count and update count equal the
number of frames, independent of the errors — and exactly the non-zero
error codes are logged, in frame order. -/
theorem frame_errors_logged_nonfatal (errs : List Nat) :
    (frameLoop errs).countP isSwapEv = errs.length ∧
    (frameLoop errs).countP isUpdateEv = errs.length ∧
    (frameLoop errs).filterMap loggedCode = errs.filter (fun e => e != 0) := by
  induction errs with
  | nil => simp [frameLoop]
  | cons e rest ih =>
    by_cases he : e = 0 <;>
      simp [frameLoop, he, List.countP_cons, List.countP_append,
        isSwapEv, isUpdateEv, loggedCode, ih, List.filter_cons]

end CheckEngine
